import Mathlib

/-!
Shallow embedding of `src/backend/controllers/studentController.js`
(a geofenced, beacon-verified attendance service) and proofs about it.

Modelling conventions:
* JS timestamps (`Date`, moment instants) are `Int` milliseconds since the
  Unix epoch; a stored `"YYYY-MM-DD"` date string is its calendar-day
  number (days since 1970-01-01) and a stored `"HH:mm"` time string is the
  parsed pair `(hour, minute)` produced by `split(':').map(Number)`.
* `Math.floor` of a division by a positive constant is `Int` `/` (which
  rounds toward negative infinity for positive divisors); `moment.diff`
  truncates toward zero, hence `Int.tdiv`.
* The `haversine` npm package is an external collaborator computing a
  floating-point distance; it is passed as an explicit function argument
  `dist : ℚ → ℚ → ℚ → ℚ → ℚ` (user lat, user lng, class lat, class lng).
* The server's local timezone (used by `Date.prototype.setHours`) is the
  explicit offset parameter `tz` (milliseconds east of UTC);
  `moment().tz('Asia/Kolkata')` is the fixed offset `istOffset`.
* Mongo `findOne` on a list-modelled collection is `List.find?`.
-/

namespace BLE

/-- Milliseconds in one minute. -/
def msPerMin : Int := 60000

/-- Milliseconds in one day. -/
def msPerDay : Int := 86400000

/-- The fixed offset of the `Asia/Kolkata` timezone (+05:30) in milliseconds. -/
def istOffset : Int := 19800000

/-- One ASCII character of JavaScript `String.prototype.toLowerCase`. -/
def jsLowerChar (c : Char) : Char :=
  if 'A' ≤ c ∧ c ≤ 'Z' then Char.ofNat (c.toNat + 32) else c

/-- JavaScript `String.prototype.toLowerCase` (ASCII model). -/
def jsToLower (s : String) : String := ⟨s.data.map jsLowerChar⟩

/-- Whitespace as removed by JavaScript `String.prototype.trim`. -/
def jsIsSpace (c : Char) : Bool := c = ' ' || c = '\t' || c = '\n' || c = '\r'

/-- JavaScript `String.prototype.trim`: strip whitespace from both ends. -/
def jsTrim (s : String) : String :=
  ⟨((s.data.dropWhile jsIsSpace).reverse.dropWhile jsIsSpace).reverse⟩

/-- JavaScript `Math.round` on a rational: floor of `q + 1/2`. -/
def jsRound (q : ℚ) : Int := ⌊q + 1/2⌋

/-- JavaScript `Math.ceil` of an integer division by a positive divisor. -/
def jsCeilDiv (a b : Int) : Int := -((-a) / b)

/-- A `Student` document: roll number, name, `year.toString()`, department. -/
structure Student where
  rollNumber : String
  name : String
  year : String
  department : String
deriving DecidableEq

/-- A `CreateClass` document (a scheduled class session). `date` is the
calendar-day number of the stored `"YYYY-MM-DD"` string; `startTime` and
`endTime` are the parsed `(hour, minute)` of the stored `"HH:mm"` strings. -/
structure CreateClass where
  className : String
  subject : String
  teacherName : String
  classCode : String
  date : Int
  day : String
  startTime : Nat × Nat
  endTime : Nat × Nat
  year : String
  branch : String
deriving DecidableEq

/-- An `AddClass` document: geofence and beacon configuration of a class. -/
structure AddClass where
  className : String
  latitude : ℚ
  longitude : ℚ
  radius : ℚ
  beaconId : Option String
deriving DecidableEq

/-- An `Attendance` document; `time` is an absolute instant in epoch ms. -/
structure Attendance where
  rollNumber : String
  className : String
  subject : String
  classCode : String
  status : String
  time : Int
deriving DecidableEq

/-- The request body field `beaconProximity` (may itself lack `beaconId`). -/
structure BeaconProximity where
  beaconId : Option String
deriving DecidableEq

/-- The body of a `submitAttendance` request. -/
structure SubmitRequest where
  rollNumber : String
  className : String
  latitude : ℚ
  longitude : ℚ
  beaconProximity : Option BeaconProximity
  classCode : String
deriving DecidableEq

/-- The four Mongo collections the controller reads (and the one it writes). -/
structure Store where
  students : List Student
  classes : List CreateClass
  geos : List AddClass
  attendance : List Attendance
deriving DecidableEq

/-- `Student.findOne({ rollNumber })`. -/
def findStudent (l : List Student) (roll : String) : Option Student :=
  l.find? (fun s => s.rollNumber == roll)

/-- `CreateClass.findOne({ classCode })`. -/
def findClassByCode (l : List CreateClass) (code : String) : Option CreateClass :=
  l.find? (fun c => c.classCode == code)

/-- `AddClass.findOne({ className: new RegExp('^...$', 'i') })`:
case-insensitive exact match on the class name. -/
def findGeo (l : List AddClass) (name : String) : Option AddClass :=
  l.find? (fun g => jsToLower g.className == jsToLower name)

/-- `now.toISOString().split('T')[0]`: the UTC calendar-day number of `now`. -/
def utcDateOf (now : Int) : Int := now / msPerDay

/-- The instant of the most recent local midnight before `now` in the
timezone with offset `tz` (what `new Date()` plus `setHours(h, m, 0, 0)`
is based on). -/
def localMidnight (tz now : Int) : Int := msPerDay * ((now + tz) / msPerDay) - tz

/-- Milliseconds after midnight of a parsed `"HH:mm"` time. -/
def hmToMs (t : Nat × Nat) : Int := (t.1 : Int) * 3600000 + (t.2 : Int) * 60000

/-- `classStartTime`: `new Date()` at `now` with
`setHours(startHour, startMinute, 0, 0)` applied in the server's local
timezone `tz`. -/
def classStartInstant (tz now : Int) (startTime : Nat × Nat) : Int :=
  localMidnight tz now + hmToMs startTime

/-- Normalization applied to a beacon id before comparison:
`x ? x.trim().toLowerCase() : null` (an absent or empty id becomes `null`,
JavaScript truthiness). -/
def normalizeBeacon : Option String → Option String
  | none => none
  | some s => if s == "" then none else some (jsToLower (jsTrim s))

/-- JavaScript falsiness of a nullable string (`!x`): `null` or `""`. -/
def strOptFalsy : Option String → Bool
  | none => true
  | some s => s == ""

/-- Outcome of the beacon validation block (lines 149-170 of the source). -/
inductive BeaconResult where
  | misconfigured
  | mismatch
  | ok
deriving DecidableEq

/-- The beacon validation block: normalize the configured and the received
beacon ids, fail `misconfigured` when no expected id is configured, fail
`mismatch` when the received id is absent or differs from the expected one. -/
def beaconCheck (geoBeaconId receivedRawBeaconId : Option String) : BeaconResult :=
  let expectedBeaconId := normalizeBeacon geoBeaconId
  let receivedBeaconId := normalizeBeacon receivedRawBeaconId
  if strOptFalsy expectedBeaconId then .misconfigured
  else if strOptFalsy receivedBeaconId || receivedBeaconId != expectedBeaconId then .mismatch
  else .ok

/-- Outcome of the timing-window validation block (lines 182-205). -/
inductive TimingResult where
  | tooEarly (minutesUntilStart : Int)
  | windowExpired (minutesLate : Int)
  | ok
deriving DecidableEq

/-- The timing-window validation block: the attendance window is
`[classStartTime, classStartTime + 15 min]`; before it fail `tooEarly`
with `Math.ceil((classStartTime - now) / 60000)`, after it fail
`windowExpired` with `Math.floor((now - classStartTime) / 60000 - 15)`. -/
def timingCheck (now classStartTime : Int) : TimingResult :=
  let attendanceWindowEnd := classStartTime + 15 * msPerMin
  if now < classStartTime then
    .tooEarly (jsCeilDiv (classStartTime - now) msPerMin)
  else if attendanceWindowEnd < now then
    .windowExpired ((now - classStartTime) / msPerMin - 15)
  else .ok

/-- The key the duplicate lookup matches an `Attendance` document against:
same roll number, class name and subject, and a timestamp inside the day
beginning at `todayStart`. -/
def attMatches (roll cn subj : String) (todayStart : Int) (r : Attendance) : Bool :=
  r.rollNumber == roll && r.className == cn && r.subject == subj &&
  decide (todayStart ≤ r.time) && decide (r.time < todayStart + msPerDay)

/-- The duplicate lookup `Attendance.findOne({ rollNumber, className,
subject, time: { $gte: new Date(today), $lt: next day } })`; `todayStart`
is the instant of UTC midnight of the request's day. -/
def findDuplicate (att : List Attendance) (roll cn subj : String)
    (todayStart : Int) : Option Attendance :=
  att.find? (attMatches roll cn subj todayStart)

/-- The invariant of the attendance collection: at most one document per
(roll number, class name, subject, calendar day). -/
def AtMostOnePerKey (att : List Attendance) : Prop :=
  ∀ (roll cn subj : String) (d : Int),
    (att.filter (attMatches roll cn subj (msPerDay * d))).length ≤ 1

/-- The `Attendance` document saved on full success. -/
def newAttendance (req : SubmitRequest) (cd : CreateClass) (now : Int) : Attendance :=
  { rollNumber := req.rollNumber
    className := cd.className
    subject := cd.subject
    classCode := cd.classCode
    status := "Present"
    time := now }

/-- The response of `submitAttendance`: one constructor per early return of
the source, in source order, carrying the structured detail each JSON
response reports (`outOfRange` carries `Math.round(distance)` and the
allowed radius; `success` carries class name, subject, `today` and `now`). -/
inductive SubmitResult where
  | studentNotFound
  | classNotFound
  | locationNotFound
  | outOfRange (distance : Int) (allowedRadius : ℚ)
  | misconfiguredBeacon
  | beaconMismatch (expected received : Option String)
  | codeMismatch (expected : String)
  | tooEarly (minutesUntilStart : Int)
  | windowExpired (minutesLate : Int)
  | alreadyMarked
  | success (className subject : String) (date time : Int)
deriving DecidableEq

/-- True exactly on the `success` response. -/
def SubmitResult.isSuccess : SubmitResult → Bool
  | .success _ _ _ _ => true
  | _ => false

/-- True exactly on the `codeMismatch` ("Invalid class code provided")
response. -/
def SubmitResult.isCodeMismatch : SubmitResult → Bool
  | .codeMismatch _ => true
  | _ => false

/-- `exports.submitAttendance` (lines 102-245 of the source): the full
validation pipeline. Returns the response together with the attendance
collection after the request (unchanged on every failure path; with the
new document prepended on success). `dist` is the `haversine` collaborator
and `tz` the server's local timezone offset. -/
def submitAttendance (dist : ℚ → ℚ → ℚ → ℚ → ℚ) (tz now : Int)
    (req : SubmitRequest) (st : Store) : SubmitResult × List Attendance :=
  match findStudent st.students req.rollNumber with
  | none => (.studentNotFound, st.attendance)
  | some _student =>
    match findClassByCode st.classes req.classCode with
    | none => (.classNotFound, st.attendance)
    | some classDetails =>
      match findGeo st.geos req.className with
      | none => (.locationNotFound, st.attendance)
      | some geoData =>
        let distance := dist req.latitude req.longitude geoData.latitude geoData.longitude
        if geoData.radius < distance then
          (.outOfRange (jsRound distance) geoData.radius, st.attendance)
        else
          match beaconCheck geoData.beaconId
              (req.beaconProximity.bind (fun b => b.beaconId)) with
          | .misconfigured => (.misconfiguredBeacon, st.attendance)
          | .mismatch =>
            (.beaconMismatch geoData.beaconId
              (req.beaconProximity.bind (fun b => b.beaconId)), st.attendance)
          | .ok =>
            if req.classCode != classDetails.classCode then
              (.codeMismatch classDetails.classCode, st.attendance)
            else
              match timingCheck now (classStartInstant tz now classDetails.startTime) with
              | .tooEarly m => (.tooEarly m, st.attendance)
              | .windowExpired m => (.windowExpired m, st.attendance)
              | .ok =>
                match findDuplicate st.attendance req.rollNumber
                    classDetails.className classDetails.subject
                    (msPerDay * utcDateOf now) with
                | some _ => (.alreadyMarked, st.attendance)
                | none =>
                  (.success classDetails.className classDetails.subject
                      (utcDateOf now) now,
                    newAttendance req classDetails now :: st.attendance)

/-- The per-class display status computed by `fetchNotifications`. -/
inductive NotifStatus where
  | marked
  | expired
  | active
  | startingSoon
  | upcoming
deriving DecidableEq

/-- Status derivation (lines 56-69 of the source), evaluated in this
priority order: existing attendance, class ended, `0 ≤ minutesFromStart ≤ 15`,
`minutesUntilStart ≤ 5`, `minutesUntilStart > 5`, defensive `expired`. -/
def deriveStatus (existingAttendance isEnded : Bool)
    (minutesUntilStart minutesFromStart : Int) : NotifStatus :=
  if existingAttendance then .marked
  else if isEnded then .expired
  else if 0 ≤ minutesFromStart ∧ minutesFromStart ≤ 15 then .active
  else if minutesUntilStart ≤ 5 then .startingSoon
  else if 5 < minutesUntilStart then .upcoming
  else .expired

/-- One entry of the notification list (`attendanceId` holds the matched
attendance document when one exists). -/
structure Notification where
  className : String
  subject : String
  teacherName : String
  date : Int
  startTime : Nat × Nat
  endTime : Nat × Nat
  day : String
  status : NotifStatus
  minutesUntilStart : Int
  minutesRemaining : Int
  attendanceId : Option Attendance
deriving DecidableEq

/-- `serverTime.format('YYYY-MM-DD')` with `serverTime` in `Asia/Kolkata`:
the Kolkata calendar-day number of `now`. -/
def formattedDateIST (now : Int) : Int := (now + istOffset) / msPerDay

/-- The instant of `moment.tz('date startTime', 'YYYY-MM-DD HH:mm',
'Asia/Kolkata')` for a stored date and a parsed `"HH:mm"` time. -/
def istInstant (date : Int) (t : Nat × Nat) : Int :=
  date * msPerDay + hmToMs t - istOffset

/-- The body of `classes.map` in `fetchNotifications` (lines 34-84):
compute the class start and end instants in `Asia/Kolkata`, look up an
existing attendance record within the class date's Kolkata day, derive the
status, and shape the notification entry. -/
def processClass (now : Int) (roll : String) (att : List Attendance)
    (c : CreateClass) : Notification :=
  let classDate := istInstant c.date c.startTime
  let classEndDate := istInstant c.date c.endTime
  let dayStart := c.date * msPerDay - istOffset
  let existingAttendance := att.find? (fun r =>
    r.rollNumber == roll && r.className == c.className &&
    r.subject == c.subject && decide (dayStart ≤ r.time) &&
    decide (r.time < dayStart + (msPerDay - 1)))
  let minutesUntilStart := Int.tdiv (classDate - now) msPerMin
  let minutesFromStart := Int.tdiv (now - classDate) msPerMin
  let isEnded := classEndDate < now
  let status := deriveStatus existingAttendance.isSome isEnded
    minutesUntilStart minutesFromStart
  { className := c.className
    subject := c.subject
    teacherName := c.teacherName
    date := c.date
    startTime := c.startTime
    endTime := c.endTime
    day := c.day
    status := status
    minutesUntilStart := max 0 minutesUntilStart
    minutesRemaining := if status = .active then max 0 (15 - minutesFromStart) else 0
    attendanceId := existingAttendance }

/-- Lexicographic order on parsed `"HH:mm"` times, as Mongo's ascending
sort on the zero-padded time strings orders them. -/
def hmLe (a b : Nat × Nat) : Bool :=
  a.1 < b.1 || (a.1 == b.1 && a.2 ≤ b.2)

/-- The response of `fetchNotifications`: the filtered notification list
and the server time the statuses were computed from. -/
structure NotifResponse where
  notifications : List Notification
  serverTime : Int
deriving DecidableEq

/-- `exports.fetchNotifications` (lines 12-97 of the source): resolve the
student (404 modelled as `none`), fetch today's classes for the student's
year and branch sorted by start time, map them to notification entries,
drop the `expired` ones and return the rest with the server time. -/
def fetchNotifications (now : Int) (roll : String) (st : Store) :
    Option NotifResponse :=
  let serverTime := now
  let formattedDate := formattedDateIST now
  match findStudent st.students roll with
  | none => none
  | some student =>
    let classes := (st.classes.filter (fun c =>
      c.year == student.year && c.branch == student.department &&
      c.date == formattedDate)).mergeSort (fun a b => hmLe a.startTime b.startTime)
    let notifications := classes.map (processClass now roll st.attendance)
    let activeNotifications := notifications.filter
      (fun n => n.status != NotifStatus.expired)
    some { notifications := activeNotifications, serverTime := serverTime }

/-! ### Concrete example scenario -/

/-- A concrete student document used in the concrete-scenario theorems. -/
def exampleStudent : Student := ⟨"R1", "Alice", "3", "CSE"⟩

/-- A concrete scheduled class (starts 10:00, ends 11:00, day 20000). -/
def exampleClass : CreateClass :=
  ⟨"CS-A", "Math", "T", "CODE1", 20000, "Mon", (10, 0), (11, 0), "3", "CSE"⟩

/-- A concrete location configuration whose beacon id is `"abc123"`. -/
def exampleGeo : AddClass := ⟨"cs-a", 10, 20, 0, some "abc123"⟩

/-- A concrete store holding the three documents above and no attendance. -/
def exampleStore : Store := ⟨[exampleStudent], [exampleClass], [exampleGeo], []⟩

/-- A concrete request reporting beacon id `" ABC123 "`. -/
def exampleRequest : SubmitRequest :=
  ⟨"R1", "CS-A", 10, 20, some ⟨some " ABC123 "⟩, "CODE1"⟩

/-- A distance collaborator that always reports distance zero. -/
def zeroDist : ℚ → ℚ → ℚ → ℚ → ℚ := fun _ _ _ _ => 0

/-- A concrete instant: day 20000 at 10:05 UTC (inside the window of
`exampleClass` for a server running in UTC, `tz = 0`). -/
def exampleNow : Int := 20000 * 86400000 + 10 * 3600000 + 5 * 60000

/-! ### Characterization lemmas -/

/-- The received raw beacon id of a request (`beaconProximity?.beaconId`). -/
def receivedRaw (req : SubmitRequest) : Option String :=
  req.beaconProximity.bind (fun b => b.beaconId)

/-- The distance the geofence gate computes for a request against a
location configuration. -/
def geoDistance (dist : ℚ → ℚ → ℚ → ℚ → ℚ) (req : SubmitRequest)
    (g : AddClass) : ℚ :=
  dist req.latitude req.longitude g.latitude g.longitude

/-- Complete case analysis of `submitAttendance`: exactly one of the
eleven outcomes happens, each one recording that every earlier gate
passed, that its own gate failed (or, for `success`, also passed), the
exact response, and the attendance collection after the request. -/
lemma submitAttendance_cases (dist : ℚ → ℚ → ℚ → ℚ → ℚ) (tz now : Int)
    (req : SubmitRequest) (st : Store) :
    (findStudent st.students req.rollNumber = none ∧
      submitAttendance dist tz now req st = (.studentNotFound, st.attendance)) ∨
    (∃ stu, findStudent st.students req.rollNumber = some stu ∧
      findClassByCode st.classes req.classCode = none ∧
      submitAttendance dist tz now req st = (.classNotFound, st.attendance)) ∨
    (∃ stu cd, findStudent st.students req.rollNumber = some stu ∧
      findClassByCode st.classes req.classCode = some cd ∧
      findGeo st.geos req.className = none ∧
      submitAttendance dist tz now req st = (.locationNotFound, st.attendance)) ∨
    (∃ stu cd g, findStudent st.students req.rollNumber = some stu ∧
      findClassByCode st.classes req.classCode = some cd ∧
      findGeo st.geos req.className = some g ∧
      g.radius < geoDistance dist req g ∧
      submitAttendance dist tz now req st =
        (.outOfRange (jsRound (geoDistance dist req g)) g.radius, st.attendance)) ∨
    (∃ stu cd g, findStudent st.students req.rollNumber = some stu ∧
      findClassByCode st.classes req.classCode = some cd ∧
      findGeo st.geos req.className = some g ∧
      ¬ g.radius < geoDistance dist req g ∧
      beaconCheck g.beaconId (receivedRaw req) = .misconfigured ∧
      submitAttendance dist tz now req st = (.misconfiguredBeacon, st.attendance)) ∨
    (∃ stu cd g, findStudent st.students req.rollNumber = some stu ∧
      findClassByCode st.classes req.classCode = some cd ∧
      findGeo st.geos req.className = some g ∧
      ¬ g.radius < geoDistance dist req g ∧
      beaconCheck g.beaconId (receivedRaw req) = .mismatch ∧
      submitAttendance dist tz now req st =
        (.beaconMismatch g.beaconId (receivedRaw req), st.attendance)) ∨
    (∃ stu cd g, findStudent st.students req.rollNumber = some stu ∧
      findClassByCode st.classes req.classCode = some cd ∧
      findGeo st.geos req.className = some g ∧
      ¬ g.radius < geoDistance dist req g ∧
      beaconCheck g.beaconId (receivedRaw req) = .ok ∧
      (req.classCode != cd.classCode) = true ∧
      submitAttendance dist tz now req st = (.codeMismatch cd.classCode, st.attendance)) ∨
    (∃ stu cd g m, findStudent st.students req.rollNumber = some stu ∧
      findClassByCode st.classes req.classCode = some cd ∧
      findGeo st.geos req.className = some g ∧
      ¬ g.radius < geoDistance dist req g ∧
      beaconCheck g.beaconId (receivedRaw req) = .ok ∧
      (req.classCode != cd.classCode) = false ∧
      timingCheck now (classStartInstant tz now cd.startTime) = .tooEarly m ∧
      submitAttendance dist tz now req st = (.tooEarly m, st.attendance)) ∨
    (∃ stu cd g m, findStudent st.students req.rollNumber = some stu ∧
      findClassByCode st.classes req.classCode = some cd ∧
      findGeo st.geos req.className = some g ∧
      ¬ g.radius < geoDistance dist req g ∧
      beaconCheck g.beaconId (receivedRaw req) = .ok ∧
      (req.classCode != cd.classCode) = false ∧
      timingCheck now (classStartInstant tz now cd.startTime) = .windowExpired m ∧
      submitAttendance dist tz now req st = (.windowExpired m, st.attendance)) ∨
    (∃ stu cd g a, findStudent st.students req.rollNumber = some stu ∧
      findClassByCode st.classes req.classCode = some cd ∧
      findGeo st.geos req.className = some g ∧
      ¬ g.radius < geoDistance dist req g ∧
      beaconCheck g.beaconId (receivedRaw req) = .ok ∧
      (req.classCode != cd.classCode) = false ∧
      timingCheck now (classStartInstant tz now cd.startTime) = .ok ∧
      findDuplicate st.attendance req.rollNumber cd.className cd.subject
        (msPerDay * utcDateOf now) = some a ∧
      submitAttendance dist tz now req st = (.alreadyMarked, st.attendance)) ∨
    (∃ stu cd g, findStudent st.students req.rollNumber = some stu ∧
      findClassByCode st.classes req.classCode = some cd ∧
      findGeo st.geos req.className = some g ∧
      ¬ g.radius < geoDistance dist req g ∧
      beaconCheck g.beaconId (receivedRaw req) = .ok ∧
      (req.classCode != cd.classCode) = false ∧
      timingCheck now (classStartInstant tz now cd.startTime) = .ok ∧
      findDuplicate st.attendance req.rollNumber cd.className cd.subject
        (msPerDay * utcDateOf now) = none ∧
      submitAttendance dist tz now req st =
        (.success cd.className cd.subject (utcDateOf now) now,
          newAttendance req cd now :: st.attendance)) := by
  cases hs : findStudent st.students req.rollNumber with
  | none =>
    exact Or.inl ⟨rfl, by simp [submitAttendance, hs]⟩
  | some stu =>
  cases hc : findClassByCode st.classes req.classCode with
  | none =>
    exact Or.inr (Or.inl ⟨stu, rfl, rfl, by simp [submitAttendance, hs, hc]⟩)
  | some cd =>
  cases hg : findGeo st.geos req.className with
  | none =>
    exact Or.inr (Or.inr (Or.inl
      ⟨stu, cd, rfl, rfl, rfl, by simp [submitAttendance, hs, hc, hg]⟩))
  | some g =>
  by_cases hd : g.radius < geoDistance dist req g
  · refine Or.inr (Or.inr (Or.inr (Or.inl ⟨stu, cd, g, rfl, rfl, rfl, hd, ?_⟩)))
    simp [submitAttendance, hs, hc, hg, geoDistance] at hd ⊢
    simp [hd]
  · cases hb : beaconCheck g.beaconId (receivedRaw req) with
    | misconfigured =>
      refine Or.inr (Or.inr (Or.inr (Or.inr (Or.inl
        ⟨stu, cd, g, rfl, rfl, rfl, hd, hb, ?_⟩))))
      simp [geoDistance] at hd
      simp [receivedRaw] at hb
      simp [submitAttendance, hs, hc, hg, hd, hb]
    | mismatch =>
      refine Or.inr (Or.inr (Or.inr (Or.inr (Or.inr (Or.inl
        ⟨stu, cd, g, rfl, rfl, rfl, hd, hb, ?_⟩)))))
      simp [geoDistance] at hd
      simp [receivedRaw] at hb
      simp [submitAttendance, hs, hc, hg, hd, hb, receivedRaw]
    | ok =>
    cases hq : req.classCode != cd.classCode with
    | true =>
      refine Or.inr (Or.inr (Or.inr (Or.inr (Or.inr (Or.inr (Or.inl
        ⟨stu, cd, g, rfl, rfl, rfl, hd, hb, hq, ?_⟩))))))
      simp [geoDistance] at hd
      simp [receivedRaw] at hb
      simp [submitAttendance, hs, hc, hg, hd, hb, hq]
    | false =>
    cases ht : timingCheck now (classStartInstant tz now cd.startTime) with
    | tooEarly m =>
      refine Or.inr (Or.inr (Or.inr (Or.inr (Or.inr (Or.inr (Or.inr (Or.inl
        ⟨stu, cd, g, m, rfl, rfl, rfl, hd, hb, hq, ht, ?_⟩)))))))
      simp [geoDistance] at hd
      simp [receivedRaw] at hb
      simp [submitAttendance, hs, hc, hg, hd, hb, hq, ht]
    | windowExpired m =>
      refine Or.inr (Or.inr (Or.inr (Or.inr (Or.inr (Or.inr (Or.inr (Or.inr (Or.inl
        ⟨stu, cd, g, m, rfl, rfl, rfl, hd, hb, hq, ht, ?_⟩))))))))
      simp [geoDistance] at hd
      simp [receivedRaw] at hb
      simp [submitAttendance, hs, hc, hg, hd, hb, hq, ht]
    | ok =>
    cases hdup : findDuplicate st.attendance req.rollNumber cd.className cd.subject
        (msPerDay * utcDateOf now) with
    | some a =>
      refine Or.inr (Or.inr (Or.inr (Or.inr (Or.inr (Or.inr (Or.inr (Or.inr (Or.inr (Or.inl
        ⟨stu, cd, g, a, rfl, rfl, rfl, hd, hb, hq, ht, hdup, ?_⟩)))))))))
      simp [geoDistance] at hd
      simp [receivedRaw] at hb
      simp [submitAttendance, hs, hc, hg, hd, hb, hq, ht, hdup]
    | none =>
      refine Or.inr (Or.inr (Or.inr (Or.inr (Or.inr (Or.inr (Or.inr (Or.inr (Or.inr (Or.inr
        ⟨stu, cd, g, rfl, rfl, rfl, hd, hb, hq, ht, hdup, ?_⟩)))))))))
      simp [geoDistance] at hd
      simp [receivedRaw] at hb
      simp [submitAttendance, hs, hc, hg, hd, hb, hq, ht, hdup]

/-- On every failure path the attendance collection is unchanged. -/
lemma submitAttendance_frame (dist : ℚ → ℚ → ℚ → ℚ → ℚ) (tz now : Int)
    (req : SubmitRequest) (st : Store)
    (h : (submitAttendance dist tz now req st).1.isSuccess = false) :
    (submitAttendance dist tz now req st).2 = st.attendance := by
  rcases submitAttendance_cases dist tz now req st with
    ⟨_, he⟩ | ⟨_, _, _, he⟩ | ⟨_, _, _, _, _, he⟩ | ⟨_, _, _, _, _, _, _, he⟩ |
    ⟨_, _, _, _, _, _, _, _, he⟩ | ⟨_, _, _, _, _, _, _, _, he⟩ |
    ⟨_, _, _, _, _, _, _, _, _, he⟩ | ⟨_, _, _, _, _, _, _, _, _, _, _, he⟩ |
    ⟨_, _, _, _, _, _, _, _, _, _, _, he⟩ | ⟨_, _, _, _, _, _, _, _, _, _, _, _, he⟩ |
    ⟨_, _, _, _, _, _, _, _, _, _, _, he⟩ <;>
    simp_all [SubmitResult.isSuccess]

/-- The freshly saved document is found by the duplicate lookup of an
identical later request of the same UTC day. -/
lemma findDuplicate_cons_self (req : SubmitRequest) (cd : CreateClass)
    (now : Int) (att : List Attendance) :
    findDuplicate (newAttendance req cd now :: att) req.rollNumber
      cd.className cd.subject (msPerDay * utcDateOf now) =
      some (newAttendance req cd now) := by
  have hp : attMatches req.rollNumber cd.className cd.subject
      (msPerDay * utcDateOf now) (newAttendance req cd now) = true := by
    simp only [attMatches, newAttendance, Bool.and_eq_true, beq_self_eq_true,
      decide_eq_true_eq, true_and]
    unfold utcDateOf msPerDay
    omega
  unfold findDuplicate
  simp [List.find?_cons, hp]

/-- Duplicate-gate-then-insert preserves the at-most-one-per-key invariant. -/
lemma submitAttendance_preserves_key (dist : ℚ → ℚ → ℚ → ℚ → ℚ) (tz now : Int)
    (req : SubmitRequest) (st : Store)
    (hinv : AtMostOnePerKey st.attendance) :
    AtMostOnePerKey (submitAttendance dist tz now req st).2 := by
  rcases submitAttendance_cases dist tz now req st with
    ⟨_, he⟩ | ⟨_, _, _, he⟩ | ⟨_, _, _, _, _, he⟩ | ⟨_, _, _, _, _, _, _, he⟩ |
    ⟨_, _, _, _, _, _, _, _, he⟩ | ⟨_, _, _, _, _, _, _, _, he⟩ |
    ⟨_, _, _, _, _, _, _, _, _, he⟩ | ⟨_, _, _, _, _, _, _, _, _, _, _, he⟩ |
    ⟨_, _, _, _, _, _, _, _, _, _, _, he⟩ | ⟨_, _, _, _, _, _, _, _, _, _, _, _, he⟩ |
    ⟨stu, cd, g, hs, hc, hg, hd, hb, hq, ht, hdup, he⟩
  case _ => rw [he]; exact hinv
  case _ => rw [he]; exact hinv
  case _ => rw [he]; exact hinv
  case _ => rw [he]; exact hinv
  case _ => rw [he]; exact hinv
  case _ => rw [he]; exact hinv
  case _ => rw [he]; exact hinv
  case _ => rw [he]; exact hinv
  case _ => rw [he]; exact hinv
  case _ => rw [he]; exact hinv
  case _ =>
    rw [he]
    intro roll cn subj d
    show (List.filter (attMatches roll cn subj (msPerDay * d))
      (newAttendance req cd now :: st.attendance)).length ≤ 1
    by_cases hp : attMatches roll cn subj (msPerDay * d) (newAttendance req cd now) = true
    · rw [List.filter_cons_of_pos hp]
      have hnil : List.filter (attMatches roll cn subj (msPerDay * d)) st.attendance = [] := by
        simp only [attMatches, newAttendance, Bool.and_eq_true, beq_iff_eq,
          decide_eq_true_eq] at hp
        obtain ⟨⟨⟨⟨h1, h2⟩, h3⟩, h4⟩, h5⟩ := hp
        have hdEq : msPerDay * d = msPerDay * utcDateOf now := by
          simp only [msPerDay, utcDateOf] at h4 h5 ⊢
          omega
        unfold findDuplicate at hdup
        rw [List.filter_eq_nil_iff]
        intro a ha
        rw [← h1, ← h2, ← h3, hdEq]
        exact List.find?_eq_none.mp hdup a ha
      rw [hnil]
      simp
    · rw [List.filter_cons_of_neg hp]
      exact hinv roll cn subj d

/-- After a successful submission, repeating the identical request against
the updated attendance collection reaches the duplicate gate and fails
`alreadyMarked`, leaving the collection unchanged. -/
lemma submitAttendance_resubmit (dist : ℚ → ℚ → ℚ → ℚ → ℚ) (tz now : Int)
    (req : SubmitRequest) (st : Store) (cn subj : String) (d t : Int)
    (hsucc : (submitAttendance dist tz now req st).1 = .success cn subj d t) :
    submitAttendance dist tz now req
      { st with attendance := (submitAttendance dist tz now req st).2 } =
      (.alreadyMarked, (submitAttendance dist tz now req st).2) := by
  rcases submitAttendance_cases dist tz now req st with
    ⟨_, he⟩ | ⟨_, _, _, he⟩ | ⟨_, _, _, _, _, he⟩ | ⟨_, _, _, _, _, _, _, he⟩ |
    ⟨_, _, _, _, _, _, _, _, he⟩ | ⟨_, _, _, _, _, _, _, _, he⟩ |
    ⟨_, _, _, _, _, _, _, _, _, he⟩ | ⟨_, _, _, _, _, _, _, _, _, _, _, he⟩ |
    ⟨_, _, _, _, _, _, _, _, _, _, _, he⟩ | ⟨_, _, _, _, _, _, _, _, _, _, _, _, he⟩ |
    ⟨stu, cd, g, hs, hc, hg, hd, hb, hq, ht, hdup, he⟩
  all_goals rw [he] at hsucc
  all_goals simp only [SubmitResult.success.injEq, reduceCtorEq] at hsucc
  rw [he]
  simp only [receivedRaw] at hb
  simp only [geoDistance] at hd
  simp [submitAttendance, hs, hc, hg, hd, hb, hq, ht, findDuplicate_cons_self]

/-! ### Claim theorems -/

/-- C3: the attendance window is inclusive at both ends: at exactly the
class start instant the timing gate passes, at exactly start plus 15
minutes it passes; strictly before the start it fails `tooEarly` reporting
`Math.ceil` of the milliseconds until start over 60000, and strictly after
start plus 15 minutes it fails `windowExpired` reporting the floored
elapsed minutes since start minus 15. -/
theorem timing_window_inclusive_bounds (now start : Int) :
    timingCheck start start = .ok ∧
    timingCheck (start + 15 * msPerMin) start = .ok ∧
    (now < start →
      timingCheck now start = .tooEarly (jsCeilDiv (start - now) msPerMin)) ∧
    (start + 15 * msPerMin < now →
      timingCheck now start = .windowExpired ((now - start) / msPerMin - 15)) := by
  refine ⟨?_, ?_, ?_, ?_⟩
  · simp only [timingCheck, msPerMin]
    rw [if_neg (by omega), if_neg (by omega)]
  · simp only [timingCheck, msPerMin]
    rw [if_neg (by omega), if_neg (by omega)]
  · intro h
    simp only [timingCheck, msPerMin, jsCeilDiv]
    rw [if_pos h]
  · intro h
    simp only [timingCheck, msPerMin, jsCeilDiv] at h ⊢
    rw [if_neg (by omega), if_pos h]

/-- C7: the two handlers do not share one reference timezone: at the
wall-clock instant 1970-01-01T20:00:00Z (epoch ms 72000000),
`fetchNotifications` computes today's date in `Asia/Kolkata` as day 1
(1970-01-02) while `submitAttendance` computes `today` from
`toISOString()` in UTC as day 0 (1970-01-01); the two disagree. -/
theorem timezone_mismatch_between_handlers :
    formattedDateIST 72000000 = 1 ∧ utcDateOf 72000000 = 0 ∧
    ¬ formattedDateIST 72000000 = utcDateOf 72000000 := by
  refine ⟨by decide, by decide, by decide⟩

/-- C9: the class-code re-verification gate never fires: the scheduled
class is retrieved by exact lookup on the submitted class code, so the
`codeMismatch` ("Invalid class code provided") response is unreachable for
every request, store, time and distance function. -/
theorem code_mismatch_unreachable (dist : ℚ → ℚ → ℚ → ℚ → ℚ) (tz now : Int)
    (req : SubmitRequest) (st : Store) :
    ((submitAttendance dist tz now req st).1).isCodeMismatch = false := by
  rcases submitAttendance_cases dist tz now req st with
    ⟨_, he⟩ | ⟨_, _, _, he⟩ | ⟨_, _, _, _, _, he⟩ | ⟨_, _, _, _, _, _, _, he⟩ |
    ⟨_, _, _, _, _, _, _, _, he⟩ | ⟨_, _, _, _, _, _, _, _, he⟩ |
    ⟨stu, cd, g, hs, hc, hg, hd, hb, hq, he⟩ | ⟨_, _, _, _, _, _, _, _, _, _, _, he⟩ |
    ⟨_, _, _, _, _, _, _, _, _, _, _, he⟩ | ⟨_, _, _, _, _, _, _, _, _, _, _, _, he⟩ |
    ⟨_, _, _, _, _, _, _, _, _, _, _, he⟩
  case _ => simp [he, SubmitResult.isCodeMismatch]
  case _ => simp [he, SubmitResult.isCodeMismatch]
  case _ => simp [he, SubmitResult.isCodeMismatch]
  case _ => simp [he, SubmitResult.isCodeMismatch]
  case _ => simp [he, SubmitResult.isCodeMismatch]
  case _ => simp [he, SubmitResult.isCodeMismatch]
  case _ =>
    exfalso
    unfold findClassByCode at hc
    have hcc := List.find?_some hc
    simp only [beq_iff_eq] at hcc
    simp [bne_iff_ne, hcc] at hq
  case _ => simp [he, SubmitResult.isCodeMismatch]
  case _ => simp [he, SubmitResult.isCodeMismatch]
  case _ => simp [he, SubmitResult.isCodeMismatch]
  case _ => simp [he, SubmitResult.isCodeMismatch]

/-- C10: `submitAttendance` never consults the scheduled class's stored
date: rewriting every class's date field arbitrarily leaves the whole
outcome unchanged (the lookup is by class code alone and the timing gate
rebuilds the start instant from today's date), and the timing gate's
outcome is invariant under shifting `now` by any whole number of days, so
a submission is accepted on any calendar day whose time of day falls
inside the window. -/
theorem submit_ignores_stored_class_date (dist : ℚ → ℚ → ℚ → ℚ → ℚ)
    (tz now : Int) (req : SubmitRequest) (st : Store)
    (f : CreateClass → Int) (k : Int) (s : Nat × Nat) :
    submitAttendance dist tz now req
        { st with classes := st.classes.map (fun c => { c with date := f c }) } =
      submitAttendance dist tz now req st ∧
    timingCheck (now + k * msPerDay)
        (classStartInstant tz (now + k * msPerDay) s) =
      timingCheck now (classStartInstant tz now s) := by
  constructor
  · have hfc : findClassByCode (st.classes.map (fun c => { c with date := f c }))
        req.classCode =
        Option.map (fun c => { c with date := f c })
          (findClassByCode st.classes req.classCode) := by
      unfold findClassByCode
      rw [List.find?_map]
      rfl
    cases hc : findClassByCode st.classes req.classCode with
    | none => simp [submitAttendance, hfc, hc]
    | some cd => simp [submitAttendance, hfc, hc, newAttendance]
  · have hsh : classStartInstant tz (now + k * msPerDay) s =
        classStartInstant tz now s + k * msPerDay := by
      simp only [classStartInstant, localMidnight, msPerDay, hmToMs]
      omega
    rw [hsh]
    generalize classStartInstant tz now s = start
    simp only [timingCheck, msPerMin, jsCeilDiv, msPerDay]
    split_ifs <;> first | rfl | omega | (congr 1; omega)

/-- C4: the notification status is derived in the exact priority order
existing-record, ended, active window, starting soon, upcoming (first
match wins), and concretely a class starting in 3 minutes gets
`startingSoon` while a class started 10 minutes ago and not ended gets
`active` with `minutesRemaining = 5`. -/
theorem notification_status_priority (hasAtt isEnded : Bool)
    (mus mfs : Int) :
    (hasAtt = true → deriveStatus hasAtt isEnded mus mfs = .marked) ∧
    (hasAtt = false → isEnded = true →
      deriveStatus hasAtt isEnded mus mfs = .expired) ∧
    (hasAtt = false → isEnded = false → 0 ≤ mfs → mfs ≤ 15 →
      deriveStatus hasAtt isEnded mus mfs = .active) ∧
    (hasAtt = false → isEnded = false → ¬ (0 ≤ mfs ∧ mfs ≤ 15) → mus ≤ 5 →
      deriveStatus hasAtt isEnded mus mfs = .startingSoon) ∧
    (hasAtt = false → isEnded = false → ¬ (0 ≤ mfs ∧ mfs ≤ 15) → 5 < mus →
      deriveStatus hasAtt isEnded mus mfs = .upcoming) ∧
    (processClass (istInstant 20000 (12, 0) - 3 * msPerMin) "R1" []
      (⟨"CS-A", "Math", "T", "CODE1", 20000, "Mon", (12, 0), (13, 0), "3", "CSE"⟩ :
        CreateClass)).status = .startingSoon ∧
    (processClass (istInstant 20000 (12, 0) + 10 * msPerMin) "R1" []
      (⟨"CS-A", "Math", "T", "CODE1", 20000, "Mon", (12, 0), (13, 0), "3", "CSE"⟩ :
        CreateClass)).status = .active ∧
    (processClass (istInstant 20000 (12, 0) + 10 * msPerMin) "R1" []
      (⟨"CS-A", "Math", "T", "CODE1", 20000, "Mon", (12, 0), (13, 0), "3", "CSE"⟩ :
        CreateClass)).minutesRemaining = 5 ∧
    (∀ (now : Int) (roll : String) (att : List Attendance) (c : CreateClass),
      (processClass now roll att c).minutesRemaining =
        if (processClass now roll att c).status = .active
        then max 0 (15 - Int.tdiv (now - istInstant c.date c.startTime) msPerMin)
        else 0) := by
  refine ⟨?_, ?_, ?_, ?_, ?_, by decide, by decide, by decide,
    fun now roll att c => rfl⟩
  · intro h
    simp [deriveStatus, h]
  · intro h1 h2
    simp [deriveStatus, h1, h2]
  · intro h1 h2 h3 h4
    simp [deriveStatus, h1, h2, h3, h4]
  · intro h1 h2 h3 h4
    simp [deriveStatus, h1, h2, h3, h4]
  · intro h1 h2 h3 h4
    have h5 : ¬ mus ≤ 5 := by omega
    simp [deriveStatus, h1, h2, h3, h4, h5]

/-- C8: no `expired` entry survives the output filter of
`fetchNotifications`, and the response carries the server time used for
the status computations. -/
theorem notifications_drop_expired (now : Int) (roll : String) (st : Store) :
    (∀ resp, fetchNotifications now roll st = some resp →
      ∀ n ∈ resp.notifications, ¬ n.status = NotifStatus.expired) ∧
    (∀ resp, fetchNotifications now roll st = some resp →
      resp.serverTime = now) := by
  cases hs : findStudent st.students roll with
  | none =>
    constructor <;> (intro resp h; simp [fetchNotifications, hs] at h)
  | some stu =>
    constructor
    · intro resp h n hn
      simp only [fetchNotifications, hs, Option.some.injEq] at h
      subst h
      have hmem := (List.mem_filter.mp hn).2
      simpa [bne_iff_ne] using hmem
    · intro resp h
      simp only [fetchNotifications, hs, Option.some.injEq] at h
      subst h
      rfl

/-- C5: once the three lookups succeed, a computed distance strictly
greater than the allowed radius yields the `outOfRange` response carrying
the (rounded) computed distance and the allowed radius with the attendance
collection unchanged, while a distance less than or equal to the radius
can never produce `outOfRange`. -/
theorem geofence_gate (dist : ℚ → ℚ → ℚ → ℚ → ℚ) (tz now : Int)
    (req : SubmitRequest) (st : Store) (g : AddClass) :
    ((findStudent st.students req.rollNumber).isSome = true →
      (findClassByCode st.classes req.classCode).isSome = true →
      findGeo st.geos req.className = some g →
      g.radius < geoDistance dist req g →
      submitAttendance dist tz now req st =
        (.outOfRange (jsRound (geoDistance dist req g)) g.radius, st.attendance)) ∧
    (findGeo st.geos req.className = some g →
      geoDistance dist req g ≤ g.radius →
      ∀ dv rad, ¬ (submitAttendance dist tz now req st).1 = .outOfRange dv rad) := by
  constructor
  · intro h1 h2 hg' hlt
    rcases submitAttendance_cases dist tz now req st with
      ⟨hs, he⟩ | ⟨_, _, hc, he⟩ | ⟨_, _, _, _, hg, he⟩ | ⟨_, _, g2, _, _, hg, hd, he⟩ |
      ⟨_, _, g2, _, _, hg, hd, _, he⟩ | ⟨_, _, g2, _, _, hg, hd, _, he⟩ |
      ⟨_, _, g2, _, _, hg, hd, _, _, he⟩ | ⟨_, _, g2, _, _, _, hg, hd, _, _, _, he⟩ |
      ⟨_, _, g2, _, _, _, hg, hd, _, _, _, he⟩ |
      ⟨_, _, g2, _, _, _, hg, hd, _, _, _, _, he⟩ |
      ⟨_, _, g2, _, _, hg, hd, _, _, _, _, he⟩
    all_goals simp_all
  · intro hg' hle dv rad heq
    rcases submitAttendance_cases dist tz now req st with
      ⟨hs, he⟩ | ⟨_, _, hc, he⟩ | ⟨_, _, _, _, hg, he⟩ | ⟨_, _, g2, _, _, hg, hd, he⟩ |
      ⟨_, _, g2, _, _, hg, hd, _, he⟩ | ⟨_, _, g2, _, _, hg, hd, _, he⟩ |
      ⟨_, _, g2, _, _, hg, hd, _, _, he⟩ | ⟨_, _, g2, _, _, _, hg, hd, _, _, _, he⟩ |
      ⟨_, _, g2, _, _, _, hg, hd, _, _, _, he⟩ |
      ⟨_, _, g2, _, _, _, hg, hd, _, _, _, _, he⟩ |
      ⟨_, _, g2, _, _, hg, hd, _, _, _, _, he⟩
    all_goals simp_all
    all_goals exact absurd hd (not_lt.mpr hle)

/-- C6: beacon matching is case- and whitespace-insensitive: both ids are
trimmed and lower-cased before comparison, so `" ABC123 "` matches
`"abc123"` (also end to end through `submitAttendance`); a missing
configured id fails `misconfigured` (`Misconfigured(beacon)` response), an
absent received id fails `mismatch`, and for present, non-empty ids the
gate passes exactly when the normalized ids agree (`beaconMismatch`
response otherwise). -/
theorem beacon_matching_insensitive (rcv : Option String) (s t : String) :
    beaconCheck (some " ABC123 ") (some "abc123") = .ok ∧
    beaconCheck none rcv = .misconfigured ∧
    (strOptFalsy (normalizeBeacon (some s)) = false →
      beaconCheck (some s) none = .mismatch) ∧
    (strOptFalsy (normalizeBeacon (some s)) = false →
      strOptFalsy (normalizeBeacon (some t)) = false →
      (beaconCheck (some s) (some t) = .ok ↔
        jsToLower (jsTrim t) = jsToLower (jsTrim s))) ∧
    (submitAttendance zeroDist 0 exampleNow exampleRequest exampleStore).1 =
      .success "CS-A" "Math" 20000 exampleNow ∧
    (submitAttendance zeroDist 0 exampleNow exampleRequest
      { exampleStore with geos := [{ exampleGeo with beaconId := none }] }).1 =
      .misconfiguredBeacon ∧
    (submitAttendance zeroDist 0 exampleNow
      { exampleRequest with beaconProximity := some ⟨some "xyz"⟩ }
      exampleStore).1 = .beaconMismatch (some "abc123") (some "xyz") := by
  refine ⟨by decide, rfl, ?_, ?_, by decide, by decide, by decide⟩
  · intro h1
    simp [beaconCheck, h1, show normalizeBeacon none = none from rfl,
      show strOptFalsy (none : Option String) = true from rfl]
  · intro h1 h2
    have hs0 : (s == "") = false := by
      cases hq : s == "" with
      | false => rfl
      | true => simp [normalizeBeacon, hq, strOptFalsy] at h1
    have ht0 : (t == "") = false := by
      cases hq : t == "" with
      | false => rfl
      | true => simp [normalizeBeacon, hq, strOptFalsy] at h2
    have hns : normalizeBeacon (some s) = some (jsToLower (jsTrim s)) := by
      simp [normalizeBeacon, hs0]
    have hnt : normalizeBeacon (some t) = some (jsToLower (jsTrim t)) := by
      simp [normalizeBeacon, ht0]
    rw [hns] at h1
    rw [hnt] at h2
    simp only [strOptFalsy] at h1 h2
    by_cases hc : jsToLower (jsTrim t) = jsToLower (jsTrim s)
    · simp [beaconCheck, hns, hnt, strOptFalsy, h1, h2, hc]
    · simp [beaconCheck, hns, hnt, strOptFalsy, h1, h2, hc, bne_iff_ne]

/-- C1: the validation gates run strictly in the order student, class (by
class code), location config, geofence, beacon, class-code
re-verification, timing window, duplicate; exactly one outcome happens,
each failure outcome certifies that every earlier gate passed and returns
its specific error with the attendance store unchanged, and on full
success exactly one `Present` record timestamped `now` is prepended and
the response carries class name, subject, date and timestamp. -/
theorem submit_gate_order_and_effects (dist : ℚ → ℚ → ℚ → ℚ → ℚ)
    (tz now : Int) (req : SubmitRequest) (st : Store) :
    ((submitAttendance dist tz now req st).1.isSuccess = false →
      (submitAttendance dist tz now req st).2 = st.attendance) ∧
    ((findStudent st.students req.rollNumber = none ∧
      submitAttendance dist tz now req st = (.studentNotFound, st.attendance)) ∨
    (∃ stu, findStudent st.students req.rollNumber = some stu ∧
      findClassByCode st.classes req.classCode = none ∧
      submitAttendance dist tz now req st = (.classNotFound, st.attendance)) ∨
    (∃ stu cd, findStudent st.students req.rollNumber = some stu ∧
      findClassByCode st.classes req.classCode = some cd ∧
      findGeo st.geos req.className = none ∧
      submitAttendance dist tz now req st = (.locationNotFound, st.attendance)) ∨
    (∃ stu cd g, findStudent st.students req.rollNumber = some stu ∧
      findClassByCode st.classes req.classCode = some cd ∧
      findGeo st.geos req.className = some g ∧
      g.radius < geoDistance dist req g ∧
      submitAttendance dist tz now req st =
        (.outOfRange (jsRound (geoDistance dist req g)) g.radius, st.attendance)) ∨
    (∃ stu cd g, findStudent st.students req.rollNumber = some stu ∧
      findClassByCode st.classes req.classCode = some cd ∧
      findGeo st.geos req.className = some g ∧
      ¬ g.radius < geoDistance dist req g ∧
      beaconCheck g.beaconId (receivedRaw req) = .misconfigured ∧
      submitAttendance dist tz now req st = (.misconfiguredBeacon, st.attendance)) ∨
    (∃ stu cd g, findStudent st.students req.rollNumber = some stu ∧
      findClassByCode st.classes req.classCode = some cd ∧
      findGeo st.geos req.className = some g ∧
      ¬ g.radius < geoDistance dist req g ∧
      beaconCheck g.beaconId (receivedRaw req) = .mismatch ∧
      submitAttendance dist tz now req st =
        (.beaconMismatch g.beaconId (receivedRaw req), st.attendance)) ∨
    (∃ stu cd g, findStudent st.students req.rollNumber = some stu ∧
      findClassByCode st.classes req.classCode = some cd ∧
      findGeo st.geos req.className = some g ∧
      ¬ g.radius < geoDistance dist req g ∧
      beaconCheck g.beaconId (receivedRaw req) = .ok ∧
      (req.classCode != cd.classCode) = true ∧
      submitAttendance dist tz now req st = (.codeMismatch cd.classCode, st.attendance)) ∨
    (∃ stu cd g m, findStudent st.students req.rollNumber = some stu ∧
      findClassByCode st.classes req.classCode = some cd ∧
      findGeo st.geos req.className = some g ∧
      ¬ g.radius < geoDistance dist req g ∧
      beaconCheck g.beaconId (receivedRaw req) = .ok ∧
      (req.classCode != cd.classCode) = false ∧
      timingCheck now (classStartInstant tz now cd.startTime) = .tooEarly m ∧
      submitAttendance dist tz now req st = (.tooEarly m, st.attendance)) ∨
    (∃ stu cd g m, findStudent st.students req.rollNumber = some stu ∧
      findClassByCode st.classes req.classCode = some cd ∧
      findGeo st.geos req.className = some g ∧
      ¬ g.radius < geoDistance dist req g ∧
      beaconCheck g.beaconId (receivedRaw req) = .ok ∧
      (req.classCode != cd.classCode) = false ∧
      timingCheck now (classStartInstant tz now cd.startTime) = .windowExpired m ∧
      submitAttendance dist tz now req st = (.windowExpired m, st.attendance)) ∨
    (∃ stu cd g a, findStudent st.students req.rollNumber = some stu ∧
      findClassByCode st.classes req.classCode = some cd ∧
      findGeo st.geos req.className = some g ∧
      ¬ g.radius < geoDistance dist req g ∧
      beaconCheck g.beaconId (receivedRaw req) = .ok ∧
      (req.classCode != cd.classCode) = false ∧
      timingCheck now (classStartInstant tz now cd.startTime) = .ok ∧
      findDuplicate st.attendance req.rollNumber cd.className cd.subject
        (msPerDay * utcDateOf now) = some a ∧
      submitAttendance dist tz now req st = (.alreadyMarked, st.attendance)) ∨
    (∃ stu cd g, findStudent st.students req.rollNumber = some stu ∧
      findClassByCode st.classes req.classCode = some cd ∧
      findGeo st.geos req.className = some g ∧
      ¬ g.radius < geoDistance dist req g ∧
      beaconCheck g.beaconId (receivedRaw req) = .ok ∧
      (req.classCode != cd.classCode) = false ∧
      timingCheck now (classStartInstant tz now cd.startTime) = .ok ∧
      findDuplicate st.attendance req.rollNumber cd.className cd.subject
        (msPerDay * utcDateOf now) = none ∧
      submitAttendance dist tz now req st =
        (.success cd.className cd.subject (utcDateOf now) now,
          newAttendance req cd now :: st.attendance))) := by
  exact ⟨submitAttendance_frame dist tz now req st,
    submitAttendance_cases dist tz now req st⟩

/-- C2: every submission preserves the invariant of at most one
attendance record per (roll number, class name, subject, calendar day):
the store is only ever extended, a record is inserted only when the
duplicate lookup for that key found none, and after a success the
identical request fails `alreadyMarked` with the store unchanged. -/
theorem attendance_unique_per_day (dist : ℚ → ℚ → ℚ → ℚ → ℚ)
    (tz now : Int) (req : SubmitRequest) (st : Store) :
    (AtMostOnePerKey st.attendance →
      AtMostOnePerKey (submitAttendance dist tz now req st).2) ∧
    ((submitAttendance dist tz now req st).2 = st.attendance ∨
      ∃ cd, findClassByCode st.classes req.classCode = some cd ∧
        findDuplicate st.attendance req.rollNumber cd.className cd.subject
          (msPerDay * utcDateOf now) = none ∧
        (submitAttendance dist tz now req st).2 =
          newAttendance req cd now :: st.attendance) ∧
    (∀ cn subj d t,
      (submitAttendance dist tz now req st).1 = .success cn subj d t →
      submitAttendance dist tz now req
        { st with attendance := (submitAttendance dist tz now req st).2 } =
        (.alreadyMarked, (submitAttendance dist tz now req st).2)) := by
  refine ⟨submitAttendance_preserves_key dist tz now req st, ?_, ?_⟩
  · rcases submitAttendance_cases dist tz now req st with
      ⟨_, he⟩ | ⟨_, _, _, he⟩ | ⟨_, _, _, _, _, he⟩ | ⟨_, _, _, _, _, _, _, he⟩ |
      ⟨_, _, _, _, _, _, _, _, he⟩ | ⟨_, _, _, _, _, _, _, _, he⟩ |
      ⟨_, _, _, _, _, _, _, _, _, he⟩ | ⟨_, _, _, _, _, _, _, _, _, _, _, he⟩ |
      ⟨_, _, _, _, _, _, _, _, _, _, _, he⟩ | ⟨_, _, _, _, _, _, _, _, _, _, _, _, he⟩ |
      ⟨stu, cd, g, hs, hc, hg, hd, hb, hq, ht, hdup, he⟩
    case _ => left; simp [he]
    case _ => left; simp [he]
    case _ => left; simp [he]
    case _ => left; simp [he]
    case _ => left; simp [he]
    case _ => left; simp [he]
    case _ => left; simp [he]
    case _ => left; simp [he]
    case _ => left; simp [he]
    case _ => left; simp [he]
    case _ => right; exact ⟨cd, hc, hdup, by simp [he]⟩
  · intro cn subj d t hsucc
    exact submitAttendance_resubmit dist tz now req st cn subj d t hsucc

end BLE
